import Mathlib

set_option linter.unusedVariables false

/-!
# Verification of ab3gy-simplelog

A shallow embedding of the validation core (`src/validators.py`) and the
append-only ADIF log store (`src/LogFile.py`) of the simplelog application,
with theorems checking the natural-language specification against the code.

Conventions of the embedding:
* Python is dynamically typed, so the `why` (edit-kind) argument that Tk
  passes to a validator is modelled by `PyVal`, a sum of integers and
  strings; the validators compare it against the string literal `'1'`
  exactly as the source does (`if (why != '1'): return True`).
* The regular expressions of `validators.py` operate on ASCII field text;
  each one is translated to an executable matcher over `List Char`.
  In every pattern a digit run is followed by a non-digit token or the end
  of the pattern, so the greedy maximal-run reading used here coincides
  with the backtracking semantics of Python on all inputs.
* The call `int(where)` in `rst_validator` raises `ValueError` on a
  non-numeric string; fallible conversion is modelled by
  `pyInt : String → Option Int` and `rst_validator` consequently returns
  `Option Bool`, `none` standing for the raised exception.
* The filesystem touched by `LogFile` is modelled by `FS`: an association
  list of file contents plus the sets of paths on which opening for
  writing (`'w'`) or appending (`'a'`) raises `OSError`.  `print`ed
  diagnostics are collected in a returned message list.
-/

/-- A dynamically typed Python value, as far as the validators can observe
one: an integer or a string.  Tk passes the `%d` action code as a string,
but callers may pass anything. -/
inductive PyVal where
  | int : Int → PyVal
  | str : String → PyVal
deriving DecidableEq, Repr

/-- Character class `[1-5]` of the RST readability digit. -/
def inR (c : Char) : Bool := '1' ≤ c && c ≤ '5'

/-- Character class `[1-9]` of the RST strength/tone digits. -/
def inT (c : Char) : Bool := '1' ≤ c && c ≤ '9'

/-- Character class `[a-zA-Z0-9\/]` used by the callsign pattern. -/
def callChar (c : Char) : Bool := c.isAlpha || c.isDigit || c = '/'

/-- Character class `[a-zA-Z0-9\-]` used by the SIG_INFO pattern. -/
def sigChar (c : Char) : Bool := c.isAlpha || c.isDigit || c = '-'

/-- `re.fullmatch` of `[a-zA-Z0-9\/]+`. -/
def callsign_pat (l : List Char) : Bool := !l.isEmpty && l.all callChar

/-- `re.fullmatch` of `[a-zA-Z0-9\-]+`. -/
def sig_info_pat (l : List Char) : Bool := !l.isEmpty && l.all sigChar

/-- `re.fullmatch` of `[a-zA-Z0-9]{1,3}`. -/
def state_pat (l : List Char) : Bool :=
  decide (1 ≤ l.length) && decide (l.length ≤ 3) && l.all Char.isAlphanum

/-- A run of `lo` to `hi` digits followed by the remainder of the input:
the matcher for a `\d{lo,hi}` token.  Returns the unconsumed suffix. -/
def digitRun (lo hi : Nat) (l : List Char) : Option (List Char) :=
  let d := l.takeWhile Char.isDigit
  if lo ≤ d.length ∧ d.length ≤ hi then some (l.drop d.length) else none

/-- Matcher for a literal character token. -/
def litChar (c : Char) : List Char → Option (List Char)
  | [] => none
  | x :: r => if x = c then some r else none

/-- Matcher for an optional literal character token (`c?`). -/
def optChar (c : Char) (l : List Char) : List Char :=
  match l with
  | [] => []
  | x :: r => if x = c then r else x :: r

/-- `re.fullmatch` of `\d{1,4}\-?` (date pattern 1). -/
def date_pat1 (l : List Char) : Bool :=
  match digitRun 1 4 l with
  | some r => (optChar '-' r).isEmpty
  | none => false

/-- `re.fullmatch` of `\d{4}\-\d{1,2}` (date pattern 2). -/
def date_pat2 (l : List Char) : Bool :=
  match digitRun 4 4 l with
  | some r =>
    match litChar '-' r with
    | some r2 => (digitRun 1 2 r2) = some []
    | none => false
  | none => false

/-- `re.fullmatch` of `\d{4}\-\d{2}\-?` (date pattern 3). -/
def date_pat3 (l : List Char) : Bool :=
  match digitRun 4 4 l with
  | some r =>
    match litChar '-' r with
    | some r2 =>
      match digitRun 2 2 r2 with
      | some r3 => (optChar '-' r3).isEmpty
      | none => false
    | none => false
  | none => false

/-- `re.fullmatch` of `\d{4}\-\d{2}\-\d{1,2}` (date pattern 4). -/
def date_pat4 (l : List Char) : Bool :=
  match digitRun 4 4 l with
  | some r =>
    match litChar '-' r with
    | some r2 =>
      match digitRun 2 2 r2 with
      | some r3 =>
        match litChar '-' r3 with
        | some r4 => (digitRun 1 2 r4) = some []
        | none => false
      | none => false
    | none => false
  | none => false

/-- `re.fullmatch` of `\d{1,2}\/?` (date pattern 5). -/
def date_pat5 (l : List Char) : Bool :=
  match digitRun 1 2 l with
  | some r => (optChar '/' r).isEmpty
  | none => false

/-- `re.fullmatch` of `\d{1,2}\/\d{1,2}\/?` (date pattern 6). -/
def date_pat6 (l : List Char) : Bool :=
  match digitRun 1 2 l with
  | some r =>
    match litChar '/' r with
    | some r2 =>
      match digitRun 1 2 r2 with
      | some r3 => (optChar '/' r3).isEmpty
      | none => false
    | none => false
  | none => false

/-- `re.fullmatch` of `\d{1,2}\/\d{1,2}\/\d{1,4}` (date pattern 7). -/
def date_pat7 (l : List Char) : Bool :=
  match digitRun 1 2 l with
  | some r =>
    match litChar '/' r with
    | some r2 =>
      match digitRun 1 2 r2 with
      | some r3 =>
        match litChar '/' r3 with
        | some r4 => (digitRun 1 4 r4) = some []
        | none => false
      | none => false
    | none => false
  | none => false

/-- `re.fullmatch` of `\d{1,2}` (time pattern 1). -/
def time_pat1 (l : List Char) : Bool := (digitRun 1 2 l) = some []

/-- `re.fullmatch` of `\d{1,2}\:\d{0,2}` (time pattern 2). -/
def time_pat2 (l : List Char) : Bool :=
  match digitRun 1 2 l with
  | some r =>
    match litChar ':' r with
    | some r2 => (digitRun 0 2 r2) = some []
    | none => false
  | none => false

/-- `re.fullmatch` of `\d*\.\d*` (frequency pattern). -/
def freq_pat (l : List Char) : Bool :=
  match digitRun 0 l.length l with
  | some r =>
    match litChar '.' r with
    | some r2 => r2.all Char.isDigit
    | none => false
  | none => false

/-- `re.fullmatch` of `[1-5]` (`rst1`). -/
def rst1_pat (l : List Char) : Bool :=
  match l with
  | [a] => inR a
  | _ => false

/-- `re.fullmatch` of `[1-5][1-9]` (`rst2`). -/
def rst2_pat (l : List Char) : Bool :=
  match l with
  | [a, b] => inR a && inT b
  | _ => false

/-- `re.fullmatch` of `[1-5][1-9][1-9]` (`rst3`). -/
def rst3_pat (l : List Char) : Bool :=
  match l with
  | [a, b, c] => inR a && inT b && inT c
  | _ => false

/-- `re.fullmatch` of `[\+\-]\d{0,2}` (`snr`). -/
def snr_pat (l : List Char) : Bool :=
  match l with
  | c :: rest => (c = '+' || c = '-') && rest.all Char.isDigit && decide (rest.length ≤ 2)
  | [] => false

/-- The Python method `str.isnumeric()` on the ASCII field text handled
by this application: true iff the string is nonempty and all characters
are decimal digits. -/
def str_isnumeric (s : String) : Bool := !s.toList.isEmpty && s.toList.all Char.isDigit

/-- Decimal value of a run of digit characters. -/
def digitsToNat (l : List Char) : Nat :=
  l.foldl (fun n c => 10 * n + (c.toNat - Char.toNat '0')) 0

/-- The Python builtin `int(s)` on the strings this application can pass: optional
surrounding spaces, an optional sign, then a nonempty run of decimal
digits; anything else raises `ValueError`, modelled by `none`. -/
def pyInt (s : String) : Option Int :=
  let t := s.toList.dropWhile (· = ' ')
  let t := (t.reverse.dropWhile (· = ' ')).reverse
  match t with
  | [] => none
  | '+' :: d => if !d.isEmpty && d.all Char.isDigit then some (digitsToNat d : Int) else none
  | '-' :: d => if !d.isEmpty && d.all Char.isDigit then some (-(digitsToNat d : Int)) else none
  | d => if d.all Char.isDigit then some (digitsToNat d : Int) else none

/-- `callsign_validator(why, where, what, all)` from `validators.py`. -/
def callsign_validator (why : PyVal) (whre what al : String) : Bool :=
  if why ≠ PyVal.str "1" then true
  else if callsign_pat what.toList then true
  else false

/-- `date_validator(why, where, what, all)` from `validators.py`. -/
def date_validator (why : PyVal) (whre what al : String) : Bool :=
  if why ≠ PyVal.str "1" then true
  else if date_pat1 al.toList then true
  else if date_pat2 al.toList then true
  else if date_pat3 al.toList then true
  else if date_pat4 al.toList then true
  else if date_pat5 al.toList then true
  else if date_pat6 al.toList then true
  else if date_pat7 al.toList then true
  else false

/-- `frequency_validator(why, where, what, all)` from `validators.py`. -/
def frequency_validator (why : PyVal) (whre what al : String) : Bool :=
  if why ≠ PyVal.str "1" then true
  else if al.length > 10 then false
  else if str_isnumeric what then true
  else if al.toList.count '.' > 1 then false
  else if freq_pat what.toList then true
  else false

/-- `power_validator(why, where, what, all)` from `validators.py`. -/
def power_validator (why : PyVal) (whre what al : String) : Bool :=
  if why ≠ PyVal.str "1" then true
  else if al.length > 4 then false
  else if str_isnumeric what then true
  else false

/-- `rst_validator(why, where, what, all)` from `validators.py`.  The
source computes `idx = int(where)` before everything else and never uses
`idx` again; a `where` that does not parse raises `ValueError`, modelled
as `none`. -/
def rst_validator (why : PyVal) (whre what al : String) : Option Bool :=
  match pyInt whre with
  | none => none
  | some _ =>
    some (if why ≠ PyVal.str "1" then true
      else if rst1_pat al.toList then true
      else if rst2_pat al.toList then true
      else if rst3_pat al.toList then true
      else if snr_pat al.toList then true
      else false)

/-- `sig_info_validator(why, where, what, all)` from `validators.py`. -/
def sig_info_validator (why : PyVal) (whre what al : String) : Bool :=
  if why ≠ PyVal.str "1" then true
  else if sig_info_pat what.toList then true
  else false

/-- `state_validator(why, where, what, all)` from `validators.py`. -/
def state_validator (why : PyVal) (whre what al : String) : Bool :=
  if why ≠ PyVal.str "1" then true
  else if state_pat al.toList then true
  else false

/-- `text_validator(why, where, what, all)` from `validators.py`. -/
def text_validator (why : PyVal) (whre what al : String) : Bool :=
  if why ≠ PyVal.str "1" then true
  else if what.toList.contains '"' then false
  else if what.toList.contains '\\' then false
  else true

/-- `time_validator(why, where, what, all)` from `validators.py`. -/
def time_validator (why : PyVal) (whre what al : String) : Bool :=
  if why ≠ PyVal.str "1" then true
  else if time_pat1 al.toList then true
  else if time_pat2 al.toList then true
  else false

/-- Association-list lookup of the content of a file by exact path name. -/
def fsLookup : List (String × String) → String → Option String
  | [], _ => none
  | (k, v) :: r, n => if k = n then some v else fsLookup r n

/-- Set (or create) the content of a file in the association list. -/
def fsSet : List (String × String) → String → String → List (String × String)
  | [], n, v => [(n, v)]
  | (k, w) :: r, n, v => if k = n then (n, v) :: r else (k, w) :: fsSet r n v

/-- The filesystem as `LogFile` can observe it: the files that exist with
their contents, plus the paths on which `open(.., 'w')` respectively
`open(.., 'a')` raises an `OSError` (permissions, missing directory, full
disk). -/
structure FS where
  files : List (String × String)
  wFails : List String
  aFails : List String
deriving DecidableEq, Repr

/-- `os.path.isfile(n)`. -/
def FS.isfile (fs : FS) (n : String) : Bool := (fsLookup fs.files n).isSome

/-- `open(n, 'w'); fd.write(v)`: truncating write, creating the file if
absent.  Callers consult `wFails` before using this. -/
def FS.writeFile (fs : FS) (n v : String) : FS :=
  { fs with files := fsSet fs.files n v }

/-- `open(n, 'a'); fd.write(v)`: appending write, creating the file if
absent.  Callers consult `aFails` before using this. -/
def FS.appendFile (fs : FS) (n v : String) : FS :=
  match fsLookup fs.files n with
  | some old => { fs with files := fsSet fs.files n (old ++ v) }
  | none => { fs with files := fsSet fs.files n v }

/-- The mutable state of a `LogFile` instance (the `_my_class` attribute
is the constant string `LogFile` and is folded into the diagnostics). -/
structure LogFile where
  filename : String
deriving DecidableEq, Repr

/-- The two-line ADIF header written by `LogFile._create`;
`prog` stands for `os.path.basename(sys.argv[0])`. -/
def adifHeader (prog : String) : String :=
  "ADIF log file created by " ++ prog ++ "\n<EOH>\n"

/-- `LogFile._create(self)`: create the log file holding only the ADIF
header.  Returns the filesystem after the call, the printed diagnostics,
and the `ok` result. -/
def LogFile.create (lf : LogFile) (prog : String) (fs : FS) :
    FS × List String × Bool :=
  if lf.filename.length = 0 then
    (fs, ["LogFile: No filename specified"], false)
  else if fs.wFails.contains lf.filename then
    (fs, ["LogFile: Error creating " ++ lf.filename], false)
  else
    (fs.writeFile lf.filename (adifHeader prog), [], true)

/-- `LogFile.append(self, record, filename)` with an empty default filename: append one ADIF record
line, creating the file with its header first when absent.  Returns the
updated instance, the filesystem after the call, the printed diagnostics,
and the `ok` result. -/
def LogFile.append (lf : LogFile) (record fname prog : String) (fs : FS) :
    LogFile × FS × List String × Bool :=
  let lf := if fname.length > 0 then { filename := fname } else lf
  if lf.filename.length = 0 then
    (lf, fs, ["LogFile: No filename specified"], false)
  else
    let step :=
      if fs.isfile lf.filename then (fs, ([] : List String), true)
      else lf.create prog fs
    if step.2.2 = false then (lf, step.1, step.2.1, false)
    else if step.1.aFails.contains lf.filename then
      (lf, step.1, step.2.1 ++ ["LogFile: Error writing " ++ lf.filename], false)
    else
      (lf, step.1.appendFile lf.filename (record ++ "\n"), step.2.1, true)

/-- `LogFile.__init__(self, filename, create=True)` (empty default filename): records the
filename and, when a filename was given, `create` is true and the file
does not exist, creates it eagerly via `_create`. -/
def LogFile.mkInit (filename : String) (createFlag : Bool) (prog : String) (fs : FS) :
    LogFile × FS × List String :=
  let lf : LogFile := { filename := filename }
  if filename.length > 0 && createFlag then
    if fs.isfile filename then (lf, fs, [])
    else
      let r := lf.create prog fs
      (lf, r.1, r.2.1)
  else (lf, fs, [])

/-- A chain of `append` calls (no per-call filename override), as the
application performs once the store exists: returns the final filesystem
and whether every call reported success. -/
def LogFile.appendSeq (lf : LogFile) (rs : List String) (prog : String) (fs : FS) :
    FS × Bool :=
  match rs with
  | [] => (fs, true)
  | r :: rest =>
    let step := lf.append r "" prog fs
    let tail := step.1.appendSeq rest prog step.2.1
    (tail.1, step.2.2.2 && tail.2)

/-- The text of a block of log lines: each record followed by one newline. -/
def joinLines : List String → String
  | [] => ""
  | r :: rest => r ++ "\n" ++ joinLines rest

/-- A complete RST triple as the patterns of the code accept it: first digit in
`[1-5]`, second and third digits in `[1-9]`. -/
def rstTripleOK (t : List Char) : Prop :=
  match t with
  | [a, b, c] => inR a = true ∧ inT b = true ∧ inT c = true
  | _ => False

/-- The reading the spec gives of an RST triple, in which the readability AND the
strength digit (positions one and two) are both constrained to `[1-5]` and
only the tone digit ranges over `[1-9]`. -/
def rstClaimTripleOK (t : List Char) : Prop :=
  match t with
  | [a, b, c] => inR a = true ∧ inR b = true ∧ inT c = true
  | _ => False

/-- The acceptance condition stated by the spec for an RST/SNR insertion:
the resulting text is a prefix of a spec-triple (`rstClaimTripleOK`), or a
sign followed by zero to two digits. -/
def rstClaimAccepts (s : String) : Prop :=
  (∃ t, rstClaimTripleOK t ∧ s.toList <+: t) ∨ snr_pat s.toList = true

example : date_validator (PyVal.str "1") "0" "5" "2023-09-05" = true := by decide
example : date_validator (PyVal.str "1") "0" "5" "2023/09/05" = false := by decide
example : rst_validator (PyVal.str "1") "0" "9" "599" = some true := by decide
example : rst_validator (PyVal.str "1") "0" "2" "-12" = some true := by decide
example : rst_validator (PyVal.str "1") "0" "9" "699" = some false := by decide
example : frequency_validator (PyVal.str "1") "0" "0" "14250.500" = true := by decide
example : frequency_validator (PyVal.str "1") "2" "." "14.250.500" = false := by decide
example : pyInt "" = none := by decide
example : pyInt "12" = some 12 := by decide
example : pyInt "-3" = some (-3) := by decide

example :
    (LogFile.append ⟨"log.adi"⟩ "<CALL:5>AB3GY <EOR>" "" "simplelog.py" ⟨[], [], []⟩).2.1.files =
      [("log.adi",
        "ADIF log file created by simplelog.py\n<EOH>\n<CALL:5>AB3GY <EOR>\n")] := by
  decide

example :
    (LogFile.mkInit "log.adi" true "simplelog.py" ⟨[], [], []⟩).2.1.files =
      [("log.adi", "ADIF log file created by simplelog.py\n<EOH>\n")] := by
  decide

example : (LogFile.mkInit "log.adi" false "simplelog.py" ⟨[], [], []⟩).2.1.files = [] := by
  decide

theorem fsLookup_fsSet_same (l : List (String × String)) (n v : String) :
    fsLookup (fsSet l n v) n = some v := by
  induction l with
  | nil => simp [fsSet, fsLookup]
  | cons h t ih =>
    obtain ⟨k, w⟩ := h
    by_cases hk : k = n <;> simp [fsSet, fsLookup, hk, ih]

theorem length_zero_iff (s : String) : s.length = 0 ↔ s = "" := by
  constructor
  · intro h
    cases s with
    | mk d =>
      cases d with
      | nil => rfl
      | cons c r => simp [String.length, List.length] at h
  · intro h; subst h; rfl

theorem toList_eq_nil_iff (s : String) : s.toList = [] ↔ s = "" := by
  constructor
  · intro h
    exact String.ext h
  · intro h
    subst h
    rfl

theorem logAppend_fst (lf : LogFile) (r prog : String) (fs : FS) :
    (lf.append r "" prog fs).1 = lf := by
  unfold LogFile.append
  simp only []
  rw [show (if ("" : String).length > 0 then ({ filename := "" } : LogFile) else lf) = lf
    from rfl]
  split
  · rfl
  · (repeat' split) <;> rfl

theorem logAppend_success (lf : LogFile) (r prog : String) (fs : FS) (C : String)
    (hC : fsLookup fs.files lf.filename = some C)
    (hok : (lf.append r "" prog fs).2.2.2 = true) :
    (lf.append r "" prog fs).2.1 =
      { fs with files := fsSet fs.files lf.filename (C ++ (r ++ "\n")) } := by
  have hisf : fs.isfile lf.filename = true := by simp [FS.isfile, hC]
  by_cases h0 : lf.filename.length = 0
  · simp [LogFile.append, h0] at hok
  · by_cases ha : lf.filename ∈ fs.aFails
    · simp [LogFile.append, h0, hisf, ha] at hok
    · simp [LogFile.append, h0, hisf, ha, FS.appendFile, hC]

theorem appendFreshSpec
    (fname prog record : String) (fs : FS)
    (hne : fname ≠ "") (habs : fs.isfile fname = false)
    (hw : fname ∉ fs.wFails) (ha : fname ∉ fs.aFails) :
    (LogFile.append ⟨fname⟩ record "" prog fs).2.2.2 = true ∧
    fsLookup (LogFile.append ⟨fname⟩ record "" prog fs).2.1.files fname =
      some ("ADIF log file created by " ++ prog ++ "\n<EOH>\n" ++ record ++ "\n") := by
  have hlen : fname.length ≠ 0 := fun h => hne ((length_zero_iff fname).mp h)
  simp only [LogFile.append, LogFile.create, String.length, List.length]
  simp [LogFile.append, LogFile.create, hlen, habs, hw, ha, FS.writeFile,
    FS.appendFile, fsLookup_fsSet_same, adifHeader, String.append_assoc]

/-- `C1`: on a fresh path with working I/O, `append` creates the file and
leaves it holding exactly the two-line ADIF header followed by the record
line, and returns `True`. -/
theorem append_fresh_file_header_then_record
    (fname prog record : String) (fs : FS)
    (hne : fname ≠ "") (habs : fs.isfile fname = false)
    (hw : fname ∉ fs.wFails) (ha : fname ∉ fs.aFails) :
    (LogFile.append ⟨fname⟩ record "" prog fs).2.2.2 = true ∧
    fsLookup (LogFile.append ⟨fname⟩ record "" prog fs).2.1.files fname =
      some ("ADIF log file created by " ++ prog ++ "\n<EOH>\n" ++ record ++ "\n") :=
  appendFreshSpec fname prog record fs hne habs hw ha

/-- Closed witness for `C1` at the record of the specification's
end-to-end example. -/
theorem append_fresh_file_header_then_record_witness :
    ("log.adi" : String) ≠ "" ∧
    (LogFile.append ⟨"log.adi"⟩ "<CALL:5>AB3GY <RST_SENT:3>599 <EOR>" "" "simplelog.py"
        ⟨[], [], []⟩).2.2.2 = true ∧
    fsLookup (LogFile.append ⟨"log.adi"⟩ "<CALL:5>AB3GY <RST_SENT:3>599 <EOR>" "" "simplelog.py"
        ⟨[], [], []⟩).2.1.files "log.adi" =
      some ("ADIF log file created by " ++ "simplelog.py" ++ "\n<EOH>\n" ++
        "<CALL:5>AB3GY <RST_SENT:3>599 <EOR>" ++ "\n") := by
  refine ⟨by decide, ?_⟩
  exact append_fresh_file_header_then_record "log.adi" "simplelog.py"
    "<CALL:5>AB3GY <RST_SENT:3>599 <EOR>" ⟨[], [], []⟩ (by decide) (by decide)
    (by decide) (by decide)

/-- `C8`: `append` never lets an exception escape — in the model it is a
total function whose every failure is the value `False` together with a
printed diagnostic: when no filename was ever supplied (filesystem left
untouched), when lazy creation of the missing file fails, and when the
write fails; and it returns `True` exactly when the record line was
written (the new content is the prior content extended by the record plus
one newline). -/
theorem append_error_handling :
    (∀ (lf : LogFile) (fs : FS) (r prog : String), lf.filename = "" →
      lf.append r "" prog fs = (lf, fs, ["LogFile: No filename specified"], false)) ∧
    (∀ (lf : LogFile) (fs : FS) (r prog : String), lf.filename ≠ "" →
      fs.isfile lf.filename = false → lf.filename ∈ fs.wFails →
      lf.append r "" prog fs =
        (lf, fs, ["LogFile: Error creating " ++ lf.filename], false)) ∧
    (∀ (lf : LogFile) (fs : FS) (r prog C : String), lf.filename ≠ "" →
      fsLookup fs.files lf.filename = some C → lf.filename ∈ fs.aFails →
      lf.append r "" prog fs =
        (lf, fs, ["LogFile: Error writing " ++ lf.filename], false)) ∧
    (∀ (lf : LogFile) (fs : FS) (r prog : String),
      (lf.append r "" prog fs).2.2.2 = true →
      ∃ pre, fsLookup (lf.append r "" prog fs).2.1.files lf.filename =
        some (pre ++ r ++ "\n")) := by
  refine ⟨?_, ?_, ?_, ?_⟩
  · intro lf fs r prog h
    obtain ⟨fname⟩ := lf
    simp only [LogFile.filename] at h
    subst h
    simp [LogFile.append]
  · intro lf fs r prog hne habs hw
    have hlen : lf.filename.length ≠ 0 := fun h => hne ((length_zero_iff _).mp h)
    simp [LogFile.append, LogFile.create, hlen, habs, hw]
  · intro lf fs r prog C hne hC ha
    have hlen : lf.filename.length ≠ 0 := fun h => hne ((length_zero_iff _).mp h)
    have hisf : fs.isfile lf.filename = true := by simp [FS.isfile, hC]
    simp [LogFile.append, hlen, hisf, ha]
  · intro lf fs r prog hok
    by_cases h0 : lf.filename.length = 0
    · simp [LogFile.append, h0] at hok
    · by_cases hisf : fs.isfile lf.filename = true
      · obtain ⟨C, hC⟩ : ∃ C, fsLookup fs.files lf.filename = some C := by
          simpa [FS.isfile, Option.isSome_iff_exists] using hisf
        refine ⟨C, ?_⟩
        rw [logAppend_success lf r prog fs C hC hok]
        simpa [String.append_assoc] using
          fsLookup_fsSet_same fs.files lf.filename (C ++ (r ++ "\n"))
      · have hne : lf.filename ≠ "" := fun h => h0 (by simp [h])
        obtain ⟨fname⟩ := lf
        simp only [LogFile.filename] at hne hisf hok ⊢
        have hisf2 : fs.isfile fname = false := by
          cases h : fs.isfile fname
          · rfl
          · exact absurd h hisf
        by_cases hw : fname ∈ fs.wFails
        · simp [LogFile.append, LogFile.create, h0, hisf2, hw] at hok
        · by_cases ha : fname ∈ fs.aFails
          · simp [LogFile.append, LogFile.create, h0, hisf2, hw, ha, FS.writeFile] at hok
          · exact ⟨"ADIF log file created by " ++ prog ++ "\n<EOH>\n",
              (appendFreshSpec fname prog r fs hne hisf2 hw ha).2⟩

/-- Closed witness for `C8` at an instance with no filename supplied. -/
theorem append_error_handling_witness :
    LogFile.append ⟨""⟩ "<CALL:4>W3GH <EOR>" "" "simplelog.py" ⟨[], [], []⟩ =
      (⟨""⟩, ⟨[], [], []⟩, ["LogFile: No filename specified"], false) :=
  append_error_handling.1 ⟨""⟩ ⟨[], [], []⟩ "<CALL:4>W3GH <EOR>" "simplelog.py" rfl

/-- `C3` as stated is false: `rst_validator` converts its position
argument with `int(where)` before looking at the edit kind, so a deletion
edit (`why = '0'`) with an unparseable position raises `ValueError`
(modelled `none`) instead of returning `True`. -/
theorem rst_deletion_raises_counterexample :
    rst_validator (PyVal.str "0") "" "x" "y" = none := by
  decide

/-- `C3` amended: for every non-insertion edit kind, the eight plain
validators return `True` for arbitrary position, changed text and
resulting text; `rst_validator` also returns `True`, provided its
position argument parses as an integer. -/
theorem non_insertion_always_passes :
    ∀ (why : PyVal) (whre what al : String), why ≠ PyVal.str "1" →
      callsign_validator why whre what al = true ∧
      date_validator why whre what al = true ∧
      time_validator why whre what al = true ∧
      frequency_validator why whre what al = true ∧
      power_validator why whre what al = true ∧
      rst_validator why whre what al = (pyInt whre).map (fun _ => true) ∧
      sig_info_validator why whre what al = true ∧
      state_validator why whre what al = true ∧
      text_validator why whre what al = true := by
  intro why whre what al h
  refine ⟨?_, ?_, ?_, ?_, ?_, ?_, ?_, ?_, ?_⟩ <;>
    simp [callsign_validator, date_validator, time_validator, frequency_validator,
      power_validator, rst_validator, sig_info_validator, state_validator,
      text_validator, h]
  cases pyInt whre <;> simp

/-- Closed witness for `C3` (amended) at a deletion edit. -/
theorem non_insertion_always_passes_witness :
    callsign_validator (PyVal.str "0") "5" "x" "y" = true ∧
    rst_validator (PyVal.str "0") "5" "x" "y" = (pyInt "5").map (fun _ => true) :=
  ⟨(non_insertion_always_passes (PyVal.str "0") "5" "x" "y" (by decide)).1,
    (non_insertion_always_passes (PyVal.str "0") "5" "x" "y" (by decide)).2.2.2.2.2.1⟩

/-- `C9` as stated is false: with the integer `1` as edit kind,
`rst_validator` still converts its position argument first and raises on
an unparseable position instead of returning `True`. -/
theorem rst_int_editKind_raises_counterexample :
    rst_validator (PyVal.int 1) "" "x" "y" = none := by
  decide

/-- `C9` amended: every validator compares the edit kind to the string
`'1'`, so any value that is not that exact string — in particular every
integer, including the integer `1` — enforces no restriction: the eight
plain validators return `True`, and `rst_validator` returns `True`
whenever its position argument parses as an integer. -/
theorem editKind_compared_to_string_one :
    ∀ (k : Int) (whre what al : String),
      callsign_validator (PyVal.int k) whre what al = true ∧
      date_validator (PyVal.int k) whre what al = true ∧
      time_validator (PyVal.int k) whre what al = true ∧
      frequency_validator (PyVal.int k) whre what al = true ∧
      power_validator (PyVal.int k) whre what al = true ∧
      rst_validator (PyVal.int k) whre what al = (pyInt whre).map (fun _ => true) ∧
      sig_info_validator (PyVal.int k) whre what al = true ∧
      state_validator (PyVal.int k) whre what al = true ∧
      text_validator (PyVal.int k) whre what al = true := by
  intro k whre what al
  refine ⟨?_, ?_, ?_, ?_, ?_, ?_, ?_, ?_, ?_⟩ <;>
    simp [callsign_validator, date_validator, time_validator, frequency_validator,
      power_validator, rst_validator, sig_info_validator, state_validator,
      text_validator]
  cases pyInt whre <;> simp

/-- Closed witness for `C9` (amended) at the integer edit kind `1`. -/
theorem editKind_compared_to_string_one_witness :
    callsign_validator (PyVal.int 1) "0" "!!" "!!" = true ∧
    rst_validator (PyVal.int 1) "0" "x" "699" = (pyInt "0").map (fun _ => true) :=
  ⟨(editKind_compared_to_string_one 1 "0" "!!" "!!").1,
    (editKind_compared_to_string_one 1 "0" "x" "699").2.2.2.2.2.1⟩

/-- `C10`: `rst_validator` is the only validator in the set that is not
total over string arguments — it evaluates `int(where)` first, so every
call whose position does not parse (for example the empty string) raises,
whatever the edit kind, and the parsed value is never used afterwards;
every other validator ignores the position entirely. -/
theorem rst_position_parse_totality :
    (∀ (why : PyVal) (what al : String), rst_validator why "" what al = none) ∧
    pyInt "" = none ∧
    (∀ (why : PyVal) (whre what al : String), pyInt whre = none →
      rst_validator why whre what al = none) ∧
    (∀ (why : PyVal) (whre whre2 what al : String) (n m : Int),
      pyInt whre = some n → pyInt whre2 = some m →
      rst_validator why whre what al = rst_validator why whre2 what al) ∧
    (∀ (why : PyVal) (whre whre2 what al : String),
      callsign_validator why whre what al = callsign_validator why whre2 what al ∧
      date_validator why whre what al = date_validator why whre2 what al ∧
      time_validator why whre what al = time_validator why whre2 what al ∧
      frequency_validator why whre what al = frequency_validator why whre2 what al ∧
      power_validator why whre what al = power_validator why whre2 what al ∧
      sig_info_validator why whre what al = sig_info_validator why whre2 what al ∧
      state_validator why whre what al = state_validator why whre2 what al ∧
      text_validator why whre what al = text_validator why whre2 what al) := by
  refine ⟨?_, by decide, ?_, ?_, ?_⟩
  · intro why what al
    simp [rst_validator, show pyInt "" = none from by decide]
  · intro why whre what al h
    simp [rst_validator, h]
  · intro why whre whre2 what al n m hn hm
    simp [rst_validator, hn, hm]
  · intro why whre whre2 what al
    exact ⟨rfl, rfl, rfl, rfl, rfl, rfl, rfl, rfl⟩

/-- Closed witness for `C10` at a parseable and an unparseable position. -/
theorem rst_position_parse_totality_witness :
    rst_validator (PyVal.str "0") "abc" "x" "y" = none ∧
    rst_validator (PyVal.str "1") "7" "x" "599" =
      rst_validator (PyVal.str "1") "99" "x" "599" :=
  ⟨rst_position_parse_totality.2.2.1 (PyVal.str "0") "abc" "x" "y" (by decide),
    rst_position_parse_totality.2.2.2.1 (PyVal.str "1") "7" "99" "x" "599" 7 99
      (by decide) (by decide)⟩

theorem rst_patterns_iff (l : List Char) :
    (rst1_pat l || rst2_pat l || rst3_pat l) = true ↔
      (l ≠ [] ∧ ∃ t, rstTripleOK t ∧ l <+: t) := by
  constructor
  · intro h
    rcases l with _ | ⟨a, _ | ⟨b, _ | ⟨c, _ | ⟨d, l⟩⟩⟩⟩ <;>
      simp [rst1_pat, rst2_pat, rst3_pat] at h
    · exact ⟨by simp, [a, '1', '1'], ⟨h, by decide, by decide⟩, ⟨['1', '1'], rfl⟩⟩
    · exact ⟨by simp, [a, b, '1'], ⟨h.1, h.2, by decide⟩, ⟨['1'], rfl⟩⟩
    · exact ⟨by simp, [a, b, c], ⟨h.1.1, h.1.2, h.2⟩, ⟨[], rfl⟩⟩
  · rintro ⟨hne, t, hok, hpre⟩
    rcases t with _ | ⟨a, _ | ⟨b, _ | ⟨c, _ | ⟨d, t⟩⟩⟩⟩ <;> simp [rstTripleOK] at hok
    obtain ⟨ha, hb, hc⟩ := hok
    obtain ⟨r, hr⟩ := hpre
    rcases l with _ | ⟨x, _ | ⟨y, _ | ⟨z, _ | ⟨w, l⟩⟩⟩⟩
    · exact absurd rfl hne
    · injection hr with h1 h2
      subst h1
      simp [rst1_pat, rst2_pat, rst3_pat, ha]
    · injection hr with h1 h2
      injection h2 with h3 h4
      subst h1
      subst h3
      simp [rst1_pat, rst2_pat, rst3_pat, ha, hb]
    · injection hr with h1 h2
      injection h2 with h3 h4
      injection h4 with h5 h6
      subst h1
      subst h3
      subst h5
      simp [rst1_pat, rst2_pat, rst3_pat, ha, hb, hc]
    · have := congrArg List.length hr
      simp at this

theorem rst_accept_iff (l : List Char) :
    (rst1_pat l || rst2_pat l || rst3_pat l || snr_pat l) = true ↔
      ((l ≠ [] ∧ ∃ t, rstTripleOK t ∧ l <+: t) ∨ snr_pat l = true) := by
  rw [show (rst1_pat l || rst2_pat l || rst3_pat l || snr_pat l) =
      ((rst1_pat l || rst2_pat l || rst3_pat l) || snr_pat l) from by
    cases rst1_pat l <;> cases rst2_pat l <;> cases rst3_pat l <;> cases snr_pat l <;> rfl]
  rw [Bool.or_eq_true, rst_patterns_iff]

theorem rst_insertion_eval (whre what al : String) (n : Int)
    (hn : pyInt whre = some n) :
    rst_validator (PyVal.str "1") whre what al =
      some (rst1_pat al.toList || rst2_pat al.toList || rst3_pat al.toList ||
        snr_pat al.toList) := by
  simp only [rst_validator, hn]
  congr 1
  cases h1 : rst1_pat al.toList <;> cases h2 : rst2_pat al.toList <;>
    cases h3 : rst3_pat al.toList <;> cases h4 : snr_pat al.toList <;>
    simp [h1, h2, h3, h4]

/-- `C4` as stated is false: the code constrains only the first digit to
1–5 and allows 1–9 in the second position (`rst2 = [1-5][1-9]`), so the
insertion result `"59"` is accepted although it is not a prefix of any
triple whose first two digits are both in 1–5, nor a signed SNR value. -/
theorem rst_insertion_claim_counterexample :
    rst_validator (PyVal.str "1") "0" "9" "59" = some true ∧ ¬ rstClaimAccepts "59" := by
  refine ⟨by decide, ?_⟩
  rintro (⟨t, hok, hpre⟩ | hsnr)
  · rcases t with _ | ⟨a, _ | ⟨b, _ | ⟨c, _ | ⟨d, t⟩⟩⟩⟩ <;> simp [rstClaimTripleOK] at hok
    obtain ⟨ha, hb, hc⟩ := hok
    obtain ⟨r, hr⟩ := hpre
    have hr2 : '5' :: '9' :: r = [a, b, c] := hr
    injection hr2 with h1 h2
    injection h2 with h3 h4
    subst h1
    subst h3
    exact absurd hb (by decide)
  · exact absurd hsnr (by decide)

/-- `C4` amended: with a position that parses as an integer, an RST/SNR
insertion is accepted exactly when the resulting text is a nonempty
prefix of an RST triple whose FIRST digit is in 1–5 and whose SECOND and
THIRD digits are in 1–9, or is a sign followed by zero to two digits. -/
theorem rst_insertion_characterization :
    ∀ (whre what al : String) (n : Int), pyInt whre = some n →
      (rst_validator (PyVal.str "1") whre what al = some true ↔
        ((al.toList ≠ [] ∧ ∃ t, rstTripleOK t ∧ al.toList <+: t) ∨
          snr_pat al.toList = true)) := by
  intro whre what al n hn
  rw [rst_insertion_eval whre what al n hn]
  simp only [Option.some.injEq]
  exact rst_accept_iff al.toList

/-- Closed witness for `C4` (amended) at the RST value 599. -/
theorem rst_insertion_characterization_witness :
    rst_validator (PyVal.str "1") "0" "9" "599" = some true :=
  (rst_insertion_characterization "0" "9" "599" 0 (by decide)).mpr
    (Or.inl ⟨by decide, ⟨['5', '9', '9'], ⟨by decide, by decide, by decide⟩, ⟨[], rfl⟩⟩⟩)

set_option maxRecDepth 8000

theorem freq_sublist_ok :
    ∀ l ∈ (("14250.500" : String).toList).sublists, l ≠ [] →
      ((!l.isEmpty && l.all Char.isDigit) || freq_pat l) = true := by
  decide

theorem frequency_insertion_eval (whre what al : String) :
    frequency_validator (PyVal.str "1") whre what al =
      (decide (al.length ≤ 10) &&
        (str_isnumeric what ||
          (decide (al.toList.count '.' ≤ 1) && freq_pat what.toList))) := by
  unfold frequency_validator
  rw [if_neg (by simp)]
  by_cases hl : al.length > 10
  · have h1 : ¬ (al.length ≤ 10) := by omega
    simp [hl, h1]
  · have h1 : al.length ≤ 10 := by omega
    by_cases hn : str_isnumeric what = true
    · simp [hl, h1, hn]
    · by_cases hc : al.toList.count '.' > 1
      · have hc2 : 1 < List.count '.' al.data := hc
        have h2 : ¬ (List.count '.' al.data ≤ 1) := by omega
        simp [hl, h1, hn, decide_eq_false h2, decide_eq_true hc2]
      · have hc2 : ¬ (1 < List.count '.' al.data) := hc
        have h2 : List.count '.' al.data ≤ 1 := by omega
        simp [hl, h1, hn, decide_eq_true h2, decide_eq_false hc2]

/-- `C6`: the frequency validator accepts an insertion exactly when the
resulting text is at most 10 characters long and either the inserted text
is all digits, or the resulting text holds at most one decimal point and
the inserted text matches `digits.digits` (either side possibly empty);
hence every genuine insertion producing `"14250.500"` is accepted, the
decimal-point insertion producing `"14.250.500"` is rejected, and any
resulting text of 11 or more characters is rejected. -/
theorem frequency_insertion_rules :
    (∀ (whre what al : String),
      frequency_validator (PyVal.str "1") whre what al = true ↔
        (al.length ≤ 10 ∧ (str_isnumeric what = true ∨
          (al.toList.count '.' ≤ 1 ∧ freq_pat what.toList = true)))) ∧
    (∀ (whre u what v : String), what ≠ "" → u ++ what ++ v = "14250.500" →
      frequency_validator (PyVal.str "1") whre what (u ++ what ++ v) = true) ∧
    (∀ whre : String,
      frequency_validator (PyVal.str "1") whre "." "14.250.500" = false) ∧
    (∀ (whre what al : String), 11 ≤ al.length →
      frequency_validator (PyVal.str "1") whre what al = false) := by
  refine ⟨?_, ?_, ?_, ?_⟩
  · intro whre what al
    rw [frequency_insertion_eval]
    simp [Bool.and_eq_true, Bool.or_eq_true]
  · intro whre u what v hne heq
    have hlist : (u ++ what ++ v).toList = u.toList ++ what.toList ++ v.toList := by
      simp [String.toList, String.data_append]
    have hinf : what.toList <:+: (("14250.500" : String).toList) := by
      refine ⟨u.toList, v.toList, ?_⟩
      have := congrArg String.toList heq
      rw [hlist] at this
      exact this
    have hmem : what.toList ∈ (("14250.500" : String).toList).sublists :=
      List.mem_sublists.mpr hinf.sublist
    have hne2 : what.toList ≠ [] := fun h => hne ((toList_eq_nil_iff what).mp h)
    have hok := freq_sublist_ok what.toList hmem hne2
    rw [frequency_insertion_eval, heq]
    have hok2 : (str_isnumeric what || freq_pat what.toList) = true := by
      simpa [str_isnumeric] using hok
    cases hs : str_isnumeric what
    · have hP : freq_pat what.toList = true := by simpa [hs] using hok2
      have hP2 : freq_pat what.data = true := hP
      simp [hs, hP, hP2, show (("14250.500" : String).length ≤ 10) from by decide,
        show (List.count '.' ("14250.500" : String).data ≤ 1) from by decide]
    · simp [hs, show (("14250.500" : String).length ≤ 10) from by decide]
  · intro whre
    rw [frequency_insertion_eval]
    decide
  · intro whre what al h
    rw [frequency_insertion_eval]
    have h1 : ¬ (al.length ≤ 10) := by omega
    simp [h1]

/-- Closed witness for `C6`: the insertion of `"250."` into `"14"` before
`"500"`, producing `"14250.500"`, is accepted, and an 11-character
resulting text is rejected. -/
theorem frequency_insertion_rules_witness :
    frequency_validator (PyVal.str "1") "2" "250." ("14" ++ "250." ++ "500") = true ∧
    frequency_validator (PyVal.str "1") "0" "1" "12345678901" = false :=
  ⟨frequency_insertion_rules.2.1 "2" "14" "250." "500" (by decide) (by decide),
    frequency_insertion_rules.2.2.2 "0" "1" "12345678901" (by decide)⟩

/-- `C7`: the date validator accepts every nonempty prefix reachable
while typing `"2023-09-05"`, `"09/05/2023"` or `"09/05/23"`, and rejects
every insertion whose resulting text is `"2023/09/05"`. -/
theorem date_prefix_examples :
    (∀ s : String, s ∈ (["2023-09-05", "09/05/2023", "09/05/23"] : List String) →
      ∀ k : Nat, k < s.length →
        date_validator (PyVal.str "1") "0" "x" (String.mk (s.toList.take (k + 1))) = true) ∧
    (∀ whre what : String,
      date_validator (PyVal.str "1") whre what "2023/09/05" = false) := by
  constructor
  · decide
  · intro whre what
    rfl

/-- Closed witness for `C7` at the full date `"2023-09-05"`. -/
theorem date_prefix_examples_witness :
    date_validator (PyVal.str "1") "0" "x" (String.mk (("2023-09-05" : String).toList.take 10))
      = true :=
  date_prefix_examples.1 "2023-09-05" (by decide) 9 (by decide)

/-- `C2`: once the store exists with content `C`, every successful
`append` leaves the file holding exactly `C` followed by the record and a
single newline, so the previous content (header included) is an unchanged
prefix and each successful call adds exactly one line; by induction the
same holds along every sequence of append calls. -/
theorem append_only_growth :
    (∀ (lf : LogFile) (fs : FS) (C r prog : String),
      fsLookup fs.files lf.filename = some C →
      (lf.append r "" prog fs).2.2.2 = true →
      fsLookup (lf.append r "" prog fs).2.1.files lf.filename = some (C ++ r ++ "\n") ∧
        (r.toList.count '\n' = 0 →
          (C ++ r ++ "\n").toList.count '\n' = C.toList.count '\n' + 1)) ∧
    (∀ (lf : LogFile) (fs : FS) (C prog : String) (rs : List String),
      fsLookup fs.files lf.filename = some C →
      (lf.appendSeq rs prog fs).2 = true →
      fsLookup (lf.appendSeq rs prog fs).1.files lf.filename = some (C ++ joinLines rs)) := by
  constructor
  · intro lf fs C r prog hC hok
    have h := logAppend_success lf r prog fs C hC hok
    constructor
    · rw [h]
      simpa [String.append_assoc] using fsLookup_fsSet_same fs.files lf.filename (C ++ (r ++ "\n"))
    · intro hr
      simp only [String.toList] at hr
      simp [String.toList, String.data_append, List.count_append, hr,
        show String.data "\n" = ['\n'] from rfl]
  · intro lf fs C prog rs
    induction rs generalizing fs C with
    | nil =>
      intro hC hseq
      have : C ++ joinLines [] = C := by
        apply String.ext
        simp [joinLines, String.data_append]
      rw [this]
      simpa [LogFile.appendSeq] using hC
    | cons r rest ih =>
      intro hC hseq
      have hfst := logAppend_fst lf r prog fs
      unfold LogFile.appendSeq at hseq
      simp only [hfst, Bool.and_eq_true] at hseq
      obtain ⟨hok1, hok2⟩ := hseq
      have hsucc := logAppend_success lf r prog fs C hC hok1
      have hC2 : fsLookup (lf.append r "" prog fs).2.1.files lf.filename =
          some (C ++ (r ++ "\n")) := by
        rw [hsucc]
        exact fsLookup_fsSet_same fs.files lf.filename (C ++ (r ++ "\n"))
      have hrec := ih (lf.append r "" prog fs).2.1 (C ++ (r ++ "\n")) hC2 hok2
      unfold LogFile.appendSeq
      simp only [hfst]
      rw [hrec]
      congr 1
      apply String.ext
      simp [joinLines, String.data_append]

/-- Closed witness for `C2`: appending one record to a store holding only
the header adds exactly that record line. -/
theorem append_only_growth_witness :
    fsLookup (LogFile.append ⟨"log.adi"⟩ "<CALL:4>W3GH <EOR>" "" "simplelog.py"
        ⟨[("log.adi", "HDR\n<EOH>\n")], [], []⟩).2.1.files "log.adi" =
      some ("HDR\n<EOH>\n" ++ "<CALL:4>W3GH <EOR>" ++ "\n") :=
  (append_only_growth.1 ⟨"log.adi"⟩ ⟨[("log.adi", "HDR\n<EOH>\n")], [], []⟩
    "HDR\n<EOH>\n" "<CALL:4>W3GH <EOR>" "simplelog.py" (by decide) (by decide)).1

/-- `C5` as stated is false: with the default `create=True`, constructing
a `LogFile` on an absent path creates the file (with its header) at
construction time, before any append. -/
theorem mkInit_eager_counterexample :
    (⟨[], [], []⟩ : FS).isfile "log.adi" = false ∧
    ((LogFile.mkInit "log.adi" true "simplelog.py" ⟨[], [], []⟩).2.1).isfile "log.adi"
      = true := by
  decide

/-- `C5` amended: constructing with `create=False`, or without a
filename, leaves the filesystem unchanged; the store file is then created
(with its header, followed by the record) at the first append. -/
theorem mkInit_lazy_when_create_false :
    (∀ (fname prog : String) (fs : FS),
      LogFile.mkInit fname false prog fs = (⟨fname⟩, fs, [])) ∧
    (∀ (b : Bool) (prog : String) (fs : FS),
      LogFile.mkInit "" b prog fs = (⟨""⟩, fs, [])) ∧
    (∀ (fname prog r : String) (fs : FS),
      fname ≠ "" → fs.isfile fname = false → fname ∉ fs.wFails → fname ∉ fs.aFails →
      fsLookup ((LogFile.mkInit fname false prog fs).1.append r "" prog
          (LogFile.mkInit fname false prog fs).2.1).2.1.files fname =
        some ("ADIF log file created by " ++ prog ++ "\n<EOH>\n" ++ r ++ "\n")) := by
  refine ⟨?_, ?_, ?_⟩
  · intro fname prog fs
    simp [LogFile.mkInit]
  · intro b prog fs
    simp [LogFile.mkInit]
  · intro fname prog r fs hne habs hw ha
    simp only [LogFile.mkInit, Bool.and_false, Bool.false_eq_true, if_false]
    exact (appendFreshSpec fname prog r fs hne habs hw ha).2

/-- Closed witness for `C5` (amended). -/
theorem mkInit_lazy_when_create_false_witness :
    LogFile.mkInit "log.adi" false "simplelog.py" ⟨[], [], []⟩ =
      (⟨"log.adi"⟩, ⟨[], [], []⟩, []) ∧
    fsLookup ((LogFile.mkInit "log.adi" false "simplelog.py" ⟨[], [], []⟩).1.append
        "<CALL:5>AB3GY <EOR>" "" "simplelog.py"
        (LogFile.mkInit "log.adi" false "simplelog.py" ⟨[], [], []⟩).2.1).2.1.files
      "log.adi" =
      some ("ADIF log file created by " ++ "simplelog.py" ++ "\n<EOH>\n" ++
        "<CALL:5>AB3GY <EOR>" ++ "\n") :=
  ⟨mkInit_lazy_when_create_false.1 "log.adi" "simplelog.py" ⟨[], [], []⟩,
    mkInit_lazy_when_create_false.2.2 "log.adi" "simplelog.py" "<CALL:5>AB3GY <EOR>"
      ⟨[], [], []⟩ (by decide) (by decide) (by decide) (by decide)⟩
